import Mathlib

/-!
Verification of the pyraven-mqtt relay (src/pyrmqtt.py and
src/pvoutput_uploader.py) against its natural-language specification.

The Python source is shallowly embedded: pure computations become Lean
functions over ℚ (exact rational arithmetic models the Python float
expressions appearing in the claims), the retry loops become fuel-indexed
step functions that thread explicit wall-clock time and an attempt counter,
and exceptions become explicit `Option`/`Except`/sum results.  External
collaborators (the paho MQTT client, the pyraven base driver, urllib) are
modelled as parameters describing every outcome they can produce, so the
theorems quantify over all behaviours of those collaborators.
-/

/-- DEFAULT_BACKOFF_MAX from src/pyrmqtt.py line 22 (used as
`float(DEFAULT_BACKOFF_MAX)` in the loops, hence ℚ here). -/
def DEFAULT_BACKOFF_MAX : ℚ := 60

/-- The base backoff value used by the n-th sleep of both retry loops in
src/pyrmqtt.py: `backoff` starts at 1.0 and after each sleep is updated by
`backoff = min(backoff * 2, float(DEFAULT_BACKOFF_MAX))` (lines 156, 168-169
and 188, 200-201). `backoffSeq n` is the value of `backoff` used in the n-th
`time.sleep(backoff + random.random())`. -/
def backoffSeq : ℕ → ℚ
  | 0 => 1
  | n + 1 => min (backoffSeq n * 2) DEFAULT_BACKOFF_MAX

/-- Closed form of the backoff recurrence: the n-th base delay is
`min(2^n, 60)`. -/
theorem backoffSeq_eq (n : ℕ) : backoffSeq n = min ((2 : ℚ) ^ n) 60 := by
  induction n with
  | zero =>
    simp [backoffSeq]
  | succ n ih =>
    rw [backoffSeq, ih, DEFAULT_BACKOFF_MAX]
    rcases le_total ((2 : ℚ) ^ n) 60 with h | h
    · rw [min_eq_left h]
      rw [pow_succ]
    · rw [min_eq_right h]
      have h2 : (60 : ℚ) ≤ (2 : ℚ) ^ (n + 1) := by
        calc (60 : ℚ) ≤ (2 : ℚ) ^ n := h
        _ ≤ (2 : ℚ) ^ (n + 1) := by
              apply pow_le_pow_right₀ (by norm_num) (Nat.le_succ n)
      rw [min_eq_right h2]
      norm_num

/-- Every base backoff value is at most the 60-second ceiling. -/
theorem backoffSeq_le (n : ℕ) : backoffSeq n ≤ 60 := by
  rw [backoffSeq_eq]; exact min_le_right _ _

/-- Every base backoff value is at least one second. -/
theorem one_le_backoffSeq (n : ℕ) : 1 ≤ backoffSeq n := by
  rw [backoffSeq_eq]
  apply le_min
  · exact one_le_pow₀ (by norm_num)
  · norm_num

/-- C8: the delay used on the n-th retry of the connect and reconnect loops
is `backoff + random.random()`, i.e. `backoffSeq n` plus a jitter in [0,1);
for every attempt count n ≥ 0 and every jitter j with 0 ≤ j < 1, the delay
lies in the half-open interval [min(2^n, 60), min(2^n, 60) + 1), and the
counter restarts at the 1-second base on each fresh invocation
(`backoffSeq 0 = 1`, mirroring `backoff = 1.0` at the top of each call). -/
theorem C8_backoff_delay_bounds (n : ℕ) (j : ℚ) (h0 : 0 ≤ j) (h1 : j < 1) :
    (min ((2 : ℚ) ^ n) 60 ≤ backoffSeq n + j ∧
      backoffSeq n + j < min ((2 : ℚ) ^ n) 60 + 1) ∧
    backoffSeq 0 = 1 := by
  refine ⟨⟨?_, ?_⟩, rfl⟩
  · rw [backoffSeq_eq]; linarith
  · rw [backoffSeq_eq]; linarith

/-- Witness for C8 at the concrete attempt count 3 and jitter 1/2. -/
theorem C8_backoff_delay_bounds_witness :
    (min ((2 : ℚ) ^ 3) 60 ≤ backoffSeq 3 + 1 / 2 ∧
      backoffSeq 3 + 1 / 2 < min ((2 : ℚ) ^ 3) 60 + 1) ∧
    backoffSeq 0 = 1 :=
  C8_backoff_delay_bounds 3 (1 / 2) (by norm_num) (by norm_num)

/-- Environment describing every outcome of the external collaborators seen
by `connect_with_backoff` (src/pyrmqtt.py lines 151-169): whether the k-th
`client.connect` attempt succeeds or raises, the jitter drawn by the k-th
`random.random()`, and the value of the shared stop flag as a function of
wall-clock time. -/
structure ConnEnv where
  connectOk : ℕ → Bool
  jitter : ℕ → ℚ
  stop : ℚ → Bool

/-- Shallow embedding of `connect_with_backoff` (src/pyrmqtt.py lines
151-169) as a fuel-indexed step function threading the attempt counter k
(which determines the current `backoff` value, `backoffSeq k`) and the
wall-clock time t.  The loop checks the stop flag once per iteration at the
`while` head; a failed connect is followed by the atomic
`time.sleep(backoff + random.random())`, which advances time by the full
delay with no stop check inside it.  Returns `(true, t)` when connected at
time t, `(false, t)` when the stop flag was observed set at time t, `none`
when the fuel runs out. -/
def connect_with_backoff (env : ConnEnv) : ℕ → ℕ → ℚ → Option (Bool × ℚ)
  | 0, _, _ => none
  | fuel + 1, k, t =>
    if env.stop t then some (false, t)
    else if env.connectOk k then some (true, t)
    else connect_with_backoff env fuel (k + 1) (t + backoffSeq k + env.jitter k)

/-- A broker that never accepts a connection, with zero jitter, whose stop
flag becomes set at time 63.5 — during the seventh backoff sleep, which runs
from t = 63 to t = 123. -/
def connStopEnv : ConnEnv where
  connectOk := fun _ => false
  jitter := fun _ => 0
  stop := fun t => decide ((127 : ℚ) / 2 ≤ t)

/-- C2 counterexample: with the stop flag set at time 63.5, while the 60 s
backoff sleep running from t = 63 to t = 123 is in progress,
`connect_with_backoff` exits only at t = 123 — the full remaining sleep —
not within one retry unit (one second) of the stop request. -/
theorem C2_stop_latency_counterexample :
    connect_with_backoff connStopEnv 8 0 0 = some (false, 123) ∧
    (63 : ℚ) < 127 / 2 ∧ (127 : ℚ) / 2 < 123 ∧
    ¬ ((123 : ℚ) ≤ 127 / 2 + 1) := by
  refine ⟨?_, by norm_num, by norm_num, by norm_num⟩
  norm_num [connect_with_backoff, connStopEnv, backoffSeq, DEFAULT_BACKOFF_MAX]

/-- Observable events of `publish_with_reconnect`: a publish attempt (topic,
payload, qos, retain flag, and whether its return code was
MQTT_ERR_SUCCESS), a `client.reconnect()` attempt (whether it returned
normally or raised), and an uninterruptible backoff sleep of duration d. -/
inductive PubEv
  | pub (topic payload : String) (qos : ℕ) (retain : Bool) (ok : Bool)
  | reconnectAttempt (ok : Bool)
  | sleepEv (d : ℚ)
  deriving DecidableEq

/-- Outcome of `publish_with_reconnect`: returned after a publish reported
success, or returned because the stop flag was observed set. -/
inductive PubOutcome
  | delivered
  | stopped
  deriving DecidableEq

/-- Environment describing every outcome of the MQTT client seen by
`publish_with_reconnect` (src/pyrmqtt.py lines 172-201): the return code of
the initial publish, and per reconnect-loop iteration k whether
`client.reconnect()` returns normally, the return code of the birth publish,
the return code of the retried publish, the jitter of the k-th sleep, and
the stop flag as a function of wall-clock time. -/
structure PubEnv where
  initialOk : Bool
  reconnectOk : ℕ → Bool
  birthOk : ℕ → Bool
  retryOk : ℕ → Bool
  stop : ℚ → Bool
  jitter : ℕ → ℚ

/-- The birth publish performed after a successful reconnect when a birth
topic is supplied: `client.publish(birth_topic, "online", qos=1, retain=True)`
(src/pyrmqtt.py lines 193-194). -/
def birthEvs (env : PubEnv) (k : ℕ) : Option String → List PubEv
  | some b => [PubEv.pub b "online" 1 true (env.birthOk k)]
  | none => []

/-- Shallow embedding of the reconnect loop of `publish_with_reconnect`
(src/pyrmqtt.py lines 188-201): while the stop flag is unset, try
`client.reconnect()`; on success publish the birth message (when a birth
topic is given) and retry the original publish, returning on success; any
reconnect exception is caught; every failed iteration ends with the atomic
`time.sleep(backoff + random.random())` before doubling the backoff.
Returns the trace of events, the outcome, and the exit time. -/
def publishRetryLoop (env : PubEnv) (topic payload : String) (qos : ℕ)
    (retain : Bool) (birth : Option String) :
    ℕ → ℕ → ℚ → Option (List PubEv × PubOutcome × ℚ)
  | 0, _, _ => none
  | fuel + 1, k, t =>
    if env.stop t then some ([], PubOutcome.stopped, t)
    else if env.reconnectOk k then
      if env.retryOk k then
        some (PubEv.reconnectAttempt true :: birthEvs env k birth ++
          [PubEv.pub topic payload qos retain true], PubOutcome.delivered, t)
      else
        (publishRetryLoop env topic payload qos retain birth fuel (k + 1)
            (t + backoffSeq k + env.jitter k)).map
          (fun r => (PubEv.reconnectAttempt true :: birthEvs env k birth ++
            PubEv.pub topic payload qos retain false ::
            PubEv.sleepEv (backoffSeq k + env.jitter k) :: r.1, r.2.1, r.2.2))
    else
      (publishRetryLoop env topic payload qos retain birth fuel (k + 1)
          (t + backoffSeq k + env.jitter k)).map
        (fun r => (PubEv.reconnectAttempt false ::
          PubEv.sleepEv (backoffSeq k + env.jitter k) :: r.1, r.2.1, r.2.2))

/-- Shallow embedding of `publish_with_reconnect` (src/pyrmqtt.py lines
172-201): publish once; if the return code is MQTT_ERR_SUCCESS return,
otherwise enter the reconnect loop. -/
def publish_with_reconnect (env : PubEnv) (topic payload : String) (qos : ℕ)
    (retain : Bool) (birth : Option String) (fuel : ℕ) :
    Option (List PubEv × PubOutcome × ℚ) :=
  if env.initialOk then
    some ([PubEv.pub topic payload qos retain true], PubOutcome.delivered, 0)
  else
    (publishRetryLoop env topic payload qos retain birth fuel 0 0).map
      (fun r => (PubEv.pub topic payload qos retain false :: r.1, r.2.1, r.2.2))

/-- A broker whose initial publish fails, whose first reconnect attempt
succeeds, and whose first retried publish succeeds, with the stop flag never
set — the scenario of the C1 claim. -/
def failOnceEnv : PubEnv where
  initialOk := false
  reconnectOk := fun _ => true
  birthOk := fun _ => true
  retryOk := fun _ => true
  stop := fun _ => false
  jitter := fun _ => 0

/-- If the reconnect loop reports delivery, the last event of its trace is a
successful publish of the original topic and payload. -/
theorem publishRetryLoop_delivered_last (env : PubEnv) (topic payload : String)
    (qos : ℕ) (retain : Bool) (birth : Option String) :
    ∀ fuel k t tr te,
      publishRetryLoop env topic payload qos retain birth fuel k t =
        some (tr, PubOutcome.delivered, te) →
      ∃ pre, tr = pre ++ [PubEv.pub topic payload qos retain true] := by
  intro fuel
  induction fuel with
  | zero =>
    intro k t tr te h
    simp [publishRetryLoop] at h
  | succ n ih =>
    intro k t tr te h
    simp only [publishRetryLoop] at h
    cases hs : env.stop t with
    | true => simp [hs] at h
    | false =>
      cases hr : env.reconnectOk k with
      | true =>
        cases hq : env.retryOk k with
        | true =>
          simp [hs, hr, hq] at h
          exact ⟨PubEv.reconnectAttempt true :: birthEvs env k birth, by simp [h.1]⟩
        | false =>
          rcases hrec : publishRetryLoop env topic payload qos retain birth n (k + 1)
              (t + backoffSeq k + env.jitter k) with _ | ⟨tr2, o2, te2⟩
          · simp [hs, hr, hq, hrec] at h
          · simp [hs, hr, hq, hrec] at h
            obtain ⟨htr, ho, hte⟩ := h
            obtain ⟨pre, hpre⟩ := ih (k + 1) (t + backoffSeq k + env.jitter k) tr2 te2
              (by rw [hrec, ho])
            refine ⟨PubEv.reconnectAttempt true :: birthEvs env k birth ++
              PubEv.pub topic payload qos retain false ::
              PubEv.sleepEv (backoffSeq k + env.jitter k) :: pre, ?_⟩
            simp [← htr, hpre]
      | false =>
        rcases hrec : publishRetryLoop env topic payload qos retain birth n (k + 1)
            (t + backoffSeq k + env.jitter k) with _ | ⟨tr2, o2, te2⟩
        · simp [hs, hr, hrec] at h
        · simp [hs, hr, hrec] at h
          obtain ⟨htr, ho, hte⟩ := h
          obtain ⟨pre, hpre⟩ := ih (k + 1) (t + backoffSeq k + env.jitter k) tr2 te2
            (by rw [hrec, ho])
          refine ⟨PubEv.reconnectAttempt false ::
            PubEv.sleepEv (backoffSeq k + env.jitter k) :: pre, ?_⟩
          simp [← htr, hpre]

/-- If the reconnect loop reports being stopped, the stop flag was observed
set at the exit time. -/
theorem publishRetryLoop_stopped_flag (env : PubEnv) (topic payload : String)
    (qos : ℕ) (retain : Bool) (birth : Option String) :
    ∀ fuel k t tr te,
      publishRetryLoop env topic payload qos retain birth fuel k t =
        some (tr, PubOutcome.stopped, te) →
      env.stop te = true := by
  intro fuel
  induction fuel with
  | zero =>
    intro k t tr te h
    simp [publishRetryLoop] at h
  | succ n ih =>
    intro k t tr te h
    simp only [publishRetryLoop] at h
    cases hs : env.stop t with
    | true =>
      simp [hs] at h
      rw [← h.2]
      exact hs
    | false =>
      cases hr : env.reconnectOk k with
      | true =>
        cases hq : env.retryOk k with
        | true => simp [hs, hr, hq] at h
        | false =>
          rcases hrec : publishRetryLoop env topic payload qos retain birth n (k + 1)
              (t + backoffSeq k + env.jitter k) with _ | ⟨tr2, o2, te2⟩
          · simp [hs, hr, hq, hrec] at h
          · simp [hs, hr, hq, hrec] at h
            obtain ⟨htr, ho, hte⟩ := h
            rw [← hte]
            exact ih (k + 1) (t + backoffSeq k + env.jitter k) tr2 te2
              (by rw [hrec, ho])
      | false =>
        rcases hrec : publishRetryLoop env topic payload qos retain birth n (k + 1)
            (t + backoffSeq k + env.jitter k) with _ | ⟨tr2, o2, te2⟩
        · simp [hs, hr, hrec] at h
        · simp [hs, hr, hrec] at h
          obtain ⟨htr, ho, hte⟩ := h
          rw [← hte]
          exact ih (k + 1) (t + backoffSeq k + env.jitter k) tr2 te2
            (by rw [hrec, ho])

/-- If `publish_with_reconnect` reports delivery, the last event of its
trace is a successful publish of the original topic and payload. -/
theorem publish_with_reconnect_delivered_last (env : PubEnv)
    (topic payload : String) (qos : ℕ) (retain : Bool) (birth : Option String)
    (fuel : ℕ) (tr : List PubEv) (te : ℚ)
    (h : publish_with_reconnect env topic payload qos retain birth fuel =
      some (tr, PubOutcome.delivered, te)) :
    ∃ pre, tr = pre ++ [PubEv.pub topic payload qos retain true] := by
  rw [publish_with_reconnect] at h
  cases hio : env.initialOk with
  | true =>
    simp [hio] at h
    exact ⟨[], by simp [h.1]⟩
  | false =>
    rcases hrec : publishRetryLoop env topic payload qos retain birth fuel 0 0
        with _ | ⟨tr2, o2, te2⟩
    · simp [hio, hrec] at h
    · simp [hio, hrec] at h
      obtain ⟨htr, ho, hte⟩ := h
      obtain ⟨pre, hpre⟩ :=
        publishRetryLoop_delivered_last env topic payload qos retain birth fuel 0 0 tr2 te2
          (by rw [hrec, ho])
      exact ⟨PubEv.pub topic payload qos retain false :: pre, by simp [← htr, hpre]⟩

/-- If `publish_with_reconnect` reports being stopped, the stop flag was
observed set at the exit time. -/
theorem publish_with_reconnect_stopped_flag (env : PubEnv)
    (topic payload : String) (qos : ℕ) (retain : Bool) (birth : Option String)
    (fuel : ℕ) (tr : List PubEv) (te : ℚ)
    (h : publish_with_reconnect env topic payload qos retain birth fuel =
      some (tr, PubOutcome.stopped, te)) :
    env.stop te = true := by
  rw [publish_with_reconnect] at h
  cases hio : env.initialOk with
  | true => simp [hio] at h
  | false =>
    rcases hrec : publishRetryLoop env topic payload qos retain birth fuel 0 0
        with _ | ⟨tr2, o2, te2⟩
    · simp [hio, hrec] at h
    · simp [hio, hrec] at h
      obtain ⟨htr, ho, hte⟩ := h
      rw [← hte]
      exact publishRetryLoop_stopped_flag env topic payload qos retain birth fuel 0 0 tr2 te2
        (by rw [hrec, ho])

/-- C1: in the scenario where the initial publish fails, the first reconnect
attempt succeeds and the first retried publish succeeds, with the stop flag
never set, `publish_with_reconnect` produces exactly the trace: failed
initial publish, one reconnect, the retained "online" birth publish on the
supplied birth topic, then exactly one successful retried publish of the
same topic and payload — the birth publish strictly between the reconnect
and the retry; moreover, for every environment, the function returns
delivered only with a successful publish as the last trace event, and
returns stopped only when the stop flag was observed set. -/
theorem C1_publish_recovery (topic payload : String) (qos : ℕ) (retain : Bool)
    (b : String) :
    publish_with_reconnect failOnceEnv topic payload qos retain (some b) 1 =
      some ([PubEv.pub topic payload qos retain false,
             PubEv.reconnectAttempt true,
             PubEv.pub b "online" 1 true true,
             PubEv.pub topic payload qos retain true],
            PubOutcome.delivered, 0) ∧
    (∀ (env : PubEnv) (t2 p2 : String) (q2 : ℕ) (r2 : Bool)
        (birth : Option String) (fuel : ℕ) (tr : List PubEv) (te : ℚ),
      publish_with_reconnect env t2 p2 q2 r2 birth fuel =
          some (tr, PubOutcome.delivered, te) →
      ∃ pre, tr = pre ++ [PubEv.pub t2 p2 q2 r2 true]) ∧
    (∀ (env : PubEnv) (t2 p2 : String) (q2 : ℕ) (r2 : Bool)
        (birth : Option String) (fuel : ℕ) (tr : List PubEv) (te : ℚ),
      publish_with_reconnect env t2 p2 q2 r2 birth fuel =
          some (tr, PubOutcome.stopped, te) →
      env.stop te = true) := by
  refine ⟨?_, ?_, ?_⟩
  · simp [publish_with_reconnect, publishRetryLoop, failOnceEnv, birthEvs]
  · intro env t2 p2 q2 r2 birth fuel tr te h
    exact publish_with_reconnect_delivered_last env t2 p2 q2 r2 birth fuel tr te h
  · intro env t2 p2 q2 r2 birth fuel tr te h
    exact publish_with_reconnect_stopped_flag env t2 p2 q2 r2 birth fuel tr te h

/-- A broker whose initial publish succeeds at once, used by the C1
witness. -/
def okEnv : PubEnv where
  initialOk := true
  reconnectOk := fun _ => false
  birthOk := fun _ => false
  retryOk := fun _ => false
  stop := fun _ => false
  jitter := fun _ => 0

/-- Witness for C1: the delivered-implies-final-successful-publish
conjunct applied to a concrete one-publish run. -/
theorem C1_publish_recovery_witness :
    ∃ pre, [PubEv.pub "raven/sensor/telemetry" "x" 1 false true] =
      pre ++ [PubEv.pub "raven/sensor/telemetry" "x" 1 false true] :=
  (C1_publish_recovery "raven/sensor/telemetry" "x" 1 false "raven/state").2.1
    okEnv "raven/sensor/telemetry" "x" 1 false none 0
    [PubEv.pub "raven/sensor/telemetry" "x" 1 false true] 0 rfl

/-- Where a stopped exit of the connect loop can occur: either the stop flag
was already set at the starting time, or the exit time is less than one full
backoff delay (base plus jitter) past the stop time. -/
theorem connect_with_backoff_stopped_time (env : ConnEnv) (stopAt : ℚ)
    (hstop : ∀ t, env.stop t = true ↔ stopAt ≤ t) :
    ∀ fuel k t te, connect_with_backoff env fuel k t = some (false, te) →
      (te = t ∧ stopAt ≤ t) ∨ ∃ j, te < stopAt + backoffSeq j + env.jitter j := by
  intro fuel
  induction fuel with
  | zero =>
    intro k t te h
    simp [connect_with_backoff] at h
  | succ n ih =>
    intro k t te h
    simp only [connect_with_backoff] at h
    cases hs : env.stop t with
    | true =>
      simp [hs] at h
      exact Or.inl ⟨h.symm, (hstop t).mp hs⟩
    | false =>
      cases hc : env.connectOk k with
      | true => simp [hs, hc] at h
      | false =>
        simp only [hs, hc, Bool.false_eq_true, if_false] at h
        rcases ih (k + 1) (t + backoffSeq k + env.jitter k) te h with ⟨hte, _⟩ | ⟨j, hj⟩
        · right
          refine ⟨k, ?_⟩
          have ht : t < stopAt := by
            by_contra hcon
            push_neg at hcon
            rw [(hstop t).mpr hcon] at hs
            exact Bool.true_eq_false.mp hs
          rw [hte]
          linarith
        · exact Or.inr ⟨j, hj⟩

/-- Where a stopped exit of the reconnect loop can occur: either the stop
flag was already set at the starting time, or the exit time is less than one
full backoff delay (base plus jitter) past the stop time. -/
theorem publishRetryLoop_stopped_time (env : PubEnv) (stopAt : ℚ)
    (topic payload : String) (qos : ℕ) (retain : Bool) (birth : Option String)
    (hstop : ∀ t, env.stop t = true ↔ stopAt ≤ t) :
    ∀ fuel k t tr te,
      publishRetryLoop env topic payload qos retain birth fuel k t =
        some (tr, PubOutcome.stopped, te) →
      (te = t ∧ stopAt ≤ t) ∨ ∃ j, te < stopAt + backoffSeq j + env.jitter j := by
  intro fuel
  induction fuel with
  | zero =>
    intro k t tr te h
    simp [publishRetryLoop] at h
  | succ n ih =>
    intro k t tr te h
    simp only [publishRetryLoop] at h
    cases hs : env.stop t with
    | true =>
      simp [hs] at h
      exact Or.inl ⟨h.2.symm, (hstop t).mp hs⟩
    | false =>
      have ht : t < stopAt := by
        by_contra hcon
        push_neg at hcon
        rw [(hstop t).mpr hcon] at hs
        exact Bool.true_eq_false.mp hs
      cases hr : env.reconnectOk k with
      | true =>
        cases hq : env.retryOk k with
        | true => simp [hs, hr, hq] at h
        | false =>
          rcases hrec : publishRetryLoop env topic payload qos retain birth n (k + 1)
              (t + backoffSeq k + env.jitter k) with _ | ⟨tr2, o2, te2⟩
          · simp [hs, hr, hq, hrec] at h
          · simp [hs, hr, hq, hrec] at h
            obtain ⟨htr, ho, hte⟩ := h
            rcases ih (k + 1) (t + backoffSeq k + env.jitter k) tr2 te2
                (by rw [hrec, ho]) with ⟨hte2, _⟩ | ⟨j, hj⟩
            · right
              refine ⟨k, ?_⟩
              rw [← hte, hte2]
              linarith
            · exact Or.inr ⟨j, by rw [← hte]; exact hj⟩
      | false =>
        rcases hrec : publishRetryLoop env topic payload qos retain birth n (k + 1)
            (t + backoffSeq k + env.jitter k) with _ | ⟨tr2, o2, te2⟩
        · simp [hs, hr, hrec] at h
        · simp [hs, hr, hrec] at h
          obtain ⟨htr, ho, hte⟩ := h
          rcases ih (k + 1) (t + backoffSeq k + env.jitter k) tr2 te2
              (by rw [hrec, ho]) with ⟨hte2, _⟩ | ⟨j, hj⟩
          · right
            refine ⟨k, ?_⟩
            rw [← hte, hte2]
            linarith
          · exact Or.inr ⟨j, by rw [← hte]; exact hj⟩

/-- C2 amended: the stop flag is checked once per retry-loop iteration, at
the loop head before each attempt, not inside the backoff sleep; the sleep
`time.sleep(backoff + random.random())` is a single uninterruptible call, so
a stop requested during a sleep takes effect when the sleep finishes.
Shutdown latency of both `connect_with_backoff` and the reconnect loop of
`publish_with_reconnect` is therefore bounded by one full backoff delay plus
jitter — strictly less than 61 seconds past the stop time — not by one retry
unit. -/
theorem C2_stop_latency_amended (cenv : ConnEnv) (penv : PubEnv) (stopAt : ℚ)
    (topic payload : String) (qos : ℕ) (retain : Bool) (birth : Option String)
    (hcs : ∀ t, cenv.stop t = true ↔ stopAt ≤ t)
    (hps : ∀ t, penv.stop t = true ↔ stopAt ≤ t)
    (hcj : ∀ k, cenv.jitter k < 1)
    (hpj : ∀ k, penv.jitter k < 1)
    (h0 : 0 ≤ stopAt) :
    (∀ fuel te, connect_with_backoff cenv fuel 0 0 = some (false, te) →
      te < stopAt + 61) ∧
    (∀ fuel tr te,
      publish_with_reconnect penv topic payload qos retain birth fuel =
        some (tr, PubOutcome.stopped, te) →
      te < stopAt + 61) := by
  constructor
  · intro fuel te h
    rcases connect_with_backoff_stopped_time cenv stopAt hcs fuel 0 0 te h with
      ⟨hte, hst⟩ | ⟨j, hj⟩
    · rw [hte]; linarith
    · have h1 := backoffSeq_le j
      have h2 := hcj j
      linarith
  · intro fuel tr te h
    rw [publish_with_reconnect] at h
    cases hio : penv.initialOk with
    | true => simp [hio] at h
    | false =>
      rcases hrec : publishRetryLoop penv topic payload qos retain birth fuel 0 0
          with _ | ⟨tr2, o2, te2⟩
      · simp [hio, hrec] at h
      · simp [hio, hrec] at h
        obtain ⟨htr, ho, hte⟩ := h
        rcases publishRetryLoop_stopped_time penv stopAt topic payload qos retain birth
            hps fuel 0 0 tr2 te2 (by rw [hrec, ho]) with ⟨hte2, hst⟩ | ⟨j, hj⟩
        · rw [← hte, hte2]; linarith
        · have h1 := backoffSeq_le j
          have h2 := hpj j
          rw [← hte]
          linarith

/-- A broker that never accepts a connection, zero jitter, stop flag set at
time 5 — used by the C2 witness. -/
def connStopFiveEnv : ConnEnv where
  connectOk := fun _ => false
  jitter := fun _ => 0
  stop := fun t => decide ((5 : ℚ) ≤ t)

/-- An MQTT client whose publishes and reconnects always fail, zero jitter,
stop flag set at time 5 — used by the C2 witness. -/
def pubStopFiveEnv : PubEnv where
  initialOk := false
  reconnectOk := fun _ => false
  birthOk := fun _ => false
  retryOk := fun _ => false
  stop := fun t => decide ((5 : ℚ) ≤ t)
  jitter := fun _ => 0

/-- Witness for C2 amended: a connect loop with the stop flag set at time 5
exits stopped at time 7 (the head of the iteration after the sleep in
progress at time 5), within the 61-second bound. -/
theorem C2_stop_latency_amended_witness : (7 : ℚ) < 5 + 61 :=
  (C2_stop_latency_amended connStopFiveEnv pubStopFiveEnv 5 "raven/sensor/telemetry"
    "x" 1 false none
    (fun t => by simp [connStopFiveEnv])
    (fun t => by simp [pubStopFiveEnv])
    (fun k => by norm_num [connStopFiveEnv])
    (fun k => by norm_num [pubStopFiveEnv])
    (by norm_num)).1 4 7
    (by norm_num [connect_with_backoff, connStopFiveEnv, backoffSeq, DEFAULT_BACKOFF_MAX])

/-- Shallow embedding of `align_and_sleep` (src/pvoutput_uploader.py lines
260-264): `next_tick = (int(now // interval_s) + 1) * interval_s` followed by
`time.sleep(max(0, next_tick - now))`, returned as the sleep duration.
Python `now // interval_s` on a float and a positive int is the exact floor
of the quotient and the `int()` of that value is exact, so it is embedded as
the integer floor. -/
def align_and_sleep (interval_s : ℤ) (now : ℚ) : ℚ :=
  max 0 (((⌊now / (interval_s : ℚ)⌋ + 1 : ℤ) : ℚ) * (interval_s : ℚ) - now)

/-- C3 counterexample: at now = 600, exactly on a 300-second boundary,
`align_and_sleep` sleeps a full 300 seconds, while the claimed formula
`ceil(now/i)*i - now` is 0 (immediate return). -/
theorem C3_aligned_sleep_counterexample :
    align_and_sleep 300 600 = 300 ∧
    ((⌈(600 : ℚ) / 300⌉ : ℚ) * 300 - 600 = 0) ∧
    align_and_sleep 300 600 ≠ (⌈(600 : ℚ) / 300⌉ : ℚ) * 300 - 600 := by
  refine ⟨?_, ?_, ?_⟩
  · norm_num [align_and_sleep]
  · norm_num
  · norm_num [align_and_sleep]

/-- C3 amended: for every interval i > 0 and every time now,
`align_and_sleep` computes its sleep duration as `(floor(now/i)+1)*i - now`
— the distance to the next multiple of i strictly greater than now — which
always lies in (0, i], so the `max(0, ...)` clamp never bites and the wake
time `now + sleep` is a multiple of i; when now is already exactly on a
boundary the function sleeps a full extra interval i rather than returning
immediately. -/
theorem C3_aligned_sleep_amended (i : ℤ) (now : ℚ) (hi : 0 < i) :
    align_and_sleep i now = ((⌊now / (i : ℚ)⌋ + 1 : ℤ) : ℚ) * i - now ∧
    0 < align_and_sleep i now ∧
    align_and_sleep i now ≤ i ∧
    (∃ m : ℤ, now + align_and_sleep i now = (m : ℚ) * i) ∧
    ((∃ m : ℤ, now = (m : ℚ) * i) → align_and_sleep i now = i) := by
  have hiq : (0 : ℚ) < (i : ℚ) := by exact_mod_cast hi
  have hne : (i : ℚ) ≠ 0 := ne_of_gt hiq
  have h1 : ((⌊now / (i : ℚ)⌋ : ℚ)) * i ≤ now := by
    have := Int.floor_le (now / (i : ℚ))
    calc ((⌊now / (i : ℚ)⌋ : ℚ)) * i ≤ (now / i) * i := by
          apply mul_le_mul_of_nonneg_right this (le_of_lt hiq)
    _ = now := div_mul_cancel₀ now hne
  have h2 : now < ((⌊now / (i : ℚ)⌋ : ℚ) + 1) * i := by
    have := Int.lt_floor_add_one (now / (i : ℚ))
    calc now = (now / i) * i := (div_mul_cancel₀ now hne).symm
    _ < ((⌊now / (i : ℚ)⌋ : ℚ) + 1) * i := by
          apply mul_lt_mul_of_pos_right this hiq
  have hval : align_and_sleep i now =
      ((⌊now / (i : ℚ)⌋ + 1 : ℤ) : ℚ) * i - now := by
    rw [align_and_sleep]
    apply max_eq_right
    push_cast
    linarith
  refine ⟨hval, ?_, ?_, ?_, ?_⟩
  · rw [hval]; push_cast; linarith
  · rw [hval]; push_cast; nlinarith
  · refine ⟨⌊now / (i : ℚ)⌋ + 1, ?_⟩
    rw [hval]; push_cast; ring
  · rintro ⟨m, hm⟩
    have hfl : ⌊now / (i : ℚ)⌋ = m := by
      rw [hm, mul_div_assoc, div_self hne, mul_one, Int.floor_intCast]
    rw [hval, hfl, hm]; push_cast; ring

/-- Witness for C3 amended at interval 300 and now = 450 (mid-interval): the
sleep is strictly positive. -/
theorem C3_aligned_sleep_amended_witness :
    (0 : ℤ) < 300 ∧ 0 < align_and_sleep 300 450 :=
  ⟨by norm_num, (C3_aligned_sleep_amended 300 450 (by norm_num)).2.1⟩

/-- A JSON value as seen by the `float()` coercion in
`Latest.update_from_json`: either a value `float()` converts to the rational
q, or a value on which `float()` raises TypeError or ValueError. -/
inductive JVal
  | num (q : ℚ)
  | bad
  deriving DecidableEq

/-- Python `float(v)` as used by `Latest.update_from_json`: `some q` on
success, `none` when it raises TypeError or ValueError (the two exceptions
the source catches). -/
def coerceFloat : JVal → Option ℚ
  | JVal.num q => some q
  | JVal.bad => none

/-- The two telemetry payload fields consulted by `Latest.update_from_json`
(src/pvoutput_uploader.py lines 63-72): presence and value of the
"raw_demand" and "demand" keys. -/
structure Payload where
  raw_demand : Option JVal
  demand : Option JVal
  deriving DecidableEq

/-- The `Latest` holder (src/pvoutput_uploader.py lines 51-82): the cached
watts-denominated field `_raw_demand_w` and kilowatts-denominated field
`_demand_kw`.  The `_ts` field and the lock are omitted: no claim reads
them, and the lock serialises each call, which the sequential embedding
already reflects. -/
structure Latest where
  raw_demand_w : Option ℚ
  demand_kw : Option ℚ
  deriving DecidableEq

/-- The state of `Latest` at construction (src/pvoutput_uploader.py lines
54-58): both fields None. -/
def Latest.init : Latest := ⟨none, none⟩

/-- `Latest.update_from_json` (src/pvoutput_uploader.py lines 60-73): if the
payload has a "raw_demand" key, set the watts field to `float(...)`, or to
None when the coercion raises; otherwise (elif) if it has a "demand" key,
set the kilowatts field likewise; in either case the other field is left
untouched. -/
def Latest.update_from_json (s : Latest) (p : Payload) : Latest :=
  match p.raw_demand with
  | some v => { s with raw_demand_w := coerceFloat v }
  | none =>
    match p.demand with
    | some v => { s with demand_kw := coerceFloat v }
    | none => s

/-- `Latest.demand_watts` (src/pvoutput_uploader.py lines 75-82): the watts
field verbatim when present, else the kilowatts field times 1000, else
None. -/
def Latest.demand_watts (s : Latest) : Option ℚ :=
  match s.raw_demand_w with
  | some w => some w
  | none =>
    match s.demand_kw with
    | some kw => some (kw * 1000)
    | none => none

/-- C4 counterexample: update with raw_demand = 500 watts, then update with
demand = 2 kilowatts; the read returns 500 — the older cached watts value —
not the 2000 watts derived from the most recent update, so last update does
not win across fields. -/
theorem C4_last_update_wins_counterexample :
    Latest.demand_watts
      (Latest.update_from_json
        (Latest.update_from_json Latest.init ⟨some (JVal.num 500), none⟩)
        ⟨none, some (JVal.num 2)⟩) = some 500 ∧
    (500 : ℚ) ≠ 2 * 1000 := by
  refine ⟨rfl, by norm_num⟩

/-- C4 amended: the read is derived from the cached watts field whenever it
is present — a raw_demand update takes precedence over any demand update
regardless of recency — and falls back to the cached kilowatts field times
1000; within each single field the most recent update wins (a raw_demand
update overwrites the cached watts value, a demand update overwrites the
cached kilowatts value, and a failed coercion overwrites it with absent). -/
theorem C4_demand_watts_amended (s : Latest) (p : Payload) :
    Latest.demand_watts (Latest.update_from_json s p) =
      match p.raw_demand with
      | some v =>
        (match coerceFloat v with
         | some w => some w
         | none => Option.map (fun kw => kw * 1000) s.demand_kw)
      | none =>
        match p.demand with
        | some v =>
          (match s.raw_demand_w with
           | some w => some w
           | none => Option.map (fun kw => kw * 1000) (coerceFloat v))
        | none => Latest.demand_watts s := by
  obtain ⟨pr, pd⟩ := p
  obtain ⟨sr, sk⟩ := s
  cases pr with
  | some v =>
    cases hv : coerceFloat v with
    | some w => cases sk <;> simp [Latest.update_from_json, Latest.demand_watts, hv]
    | none => cases sk <;> simp [Latest.update_from_json, Latest.demand_watts, hv]
  | none =>
    cases pd with
    | some v =>
      cases hv : coerceFloat v with
      | some w => cases sr <;> simp [Latest.update_from_json, Latest.demand_watts, hv]
      | none => cases sr <;> simp [Latest.update_from_json, Latest.demand_watts, hv]
    | none => cases sr <;> cases sk <;> simp [Latest.update_from_json, Latest.demand_watts]

/-- C5: the read returns None before any update; after an update with
raw_demand = 500 it returns 500; after an update with demand = 0.5 it
returns 500 (kW to W conversion); and an update whose field value fails
`float()` coercion leaves that field absent in the cache, for any prior
state, without raising (the embedding is a total function). -/
theorem C5_latest_reading_scenarios :
    Latest.demand_watts Latest.init = none ∧
    Latest.demand_watts
      (Latest.update_from_json Latest.init ⟨some (JVal.num 500), none⟩) = some 500 ∧
    Latest.demand_watts
      (Latest.update_from_json Latest.init ⟨none, some (JVal.num (1 / 2))⟩) = some 500 ∧
    (∀ s : Latest,
      (Latest.update_from_json s ⟨some JVal.bad, none⟩).raw_demand_w = none) ∧
    (∀ s : Latest,
      (Latest.update_from_json s ⟨none, some JVal.bad⟩).demand_kw = none) := by
  refine ⟨rfl, rfl, ?_, ?_, ?_⟩
  · show some ((1 / 2 : ℚ) * 1000) = some 500
    norm_num
  · intro s
    rfl
  · intro s
    rfl

/-- Python 3 `round()` on a float with no ndigits argument: the nearest
integer, ties going to the even integer (round half to even). -/
def pyRound (q : ℚ) : ℤ :=
  if q - ⌊q⌋ < 1 / 2 then ⌊q⌋
  else if 1 / 2 < q - ⌊q⌋ then ⌊q⌋ + 1
  else if ⌊q⌋ % 2 = 0 then ⌊q⌋ else ⌊q⌋ + 1

/-- The form fields of the PVOutput status POST built by `post_pvoutput`
(src/pvoutput_uploader.py lines 218-246).  The `d` and `t` fields carry the
strftime renderings of the local timestamp, passed in as strings because
datetime formatting belongs to the external datetime library. -/
structure StatusPayload where
  d : String
  t : String
  v2 : Option String
  v4 : String
  n : String
  v6 : Option String
  deriving DecidableEq

/-- Shallow embedding of the payload construction of `post_pvoutput`
(src/pvoutput_uploader.py lines 218-246): gross mode when
`PVOUTPUT_NET == 0` — `v4 = str(0 if demand is None else (0 if demand < 0
else int(round(demand))))`, `n = "0"`, no v2 — and net mode otherwise —
`v4 = str(imp)`, `v2 = str(exp)` with imp/exp from the sign of demand,
`n = "1"`. `v6` is the rounded voltage when the probe returned one. -/
def post_pvoutput (pvoutput_net : ℤ) (dstr tstr : String)
    (demand_w : Option ℚ) (voltage_v : Option ℚ) : StatusPayload :=
  let v6str := voltage_v.map (fun v => toString (pyRound v))
  if pvoutput_net = 0 then
    let import_w : ℤ :=
      match demand_w with
      | none => 0
      | some dw => if dw < 0 then 0 else pyRound dw
    { d := dstr, t := tstr, v2 := none, v4 := toString import_w,
      n := "0", v6 := v6str }
  else
    let imp : ℤ :=
      match demand_w with
      | none => 0
      | some dw => if 0 ≤ dw then pyRound dw else 0
    let exp_w : ℤ :=
      match demand_w with
      | none => 0
      | some dw => if 0 ≤ dw then 0 else pyRound |dw|
    { d := dstr, t := tstr, v2 := some (toString exp_w), v4 := toString imp,
      n := "1", v6 := v6str }

/-- C6: the cloud status sample fields as a function of mode and demand —
gross mode (net flag 0): v4 is the round-half-to-even rounded demand for non-negative
demand and "0" for negative or absent demand, n = "0" and v2 absent; net
mode (net flag 1): v4 is the rounded demand for non-negative demand else
"0", v2 is "0" for non-negative demand and the rounded absolute value for
negative demand, always present, with n = "1" — together with the concrete instances from the spec at +550 W, -200 W and absent demand. -/
theorem C6_cloud_sample_fields (dstr tstr : String) (demand : Option ℚ)
    (volt : Option ℚ) :
    ((post_pvoutput 0 dstr tstr demand volt).v4 =
        (match demand with
         | none => "0"
         | some dw => if dw < 0 then "0" else toString (pyRound dw)) ∧
      (post_pvoutput 0 dstr tstr demand volt).n = "0" ∧
      (post_pvoutput 0 dstr tstr demand volt).v2 = none) ∧
    ((post_pvoutput 1 dstr tstr demand volt).v4 =
        (match demand with
         | none => "0"
         | some dw => if 0 ≤ dw then toString (pyRound dw) else "0") ∧
      (post_pvoutput 1 dstr tstr demand volt).v2 =
        some (match demand with
          | none => "0"
          | some dw => if 0 ≤ dw then "0" else toString (pyRound |dw|)) ∧
      (post_pvoutput 1 dstr tstr demand volt).n = "1") ∧
    (post_pvoutput 0 dstr tstr (some 550) volt).v4 = "550" ∧
    (post_pvoutput 0 dstr tstr (some (-200)) volt).v4 = "0" ∧
    (post_pvoutput 0 dstr tstr none volt).v4 = "0" ∧
    (post_pvoutput 1 dstr tstr (some 550) volt).v4 = "550" ∧
    (post_pvoutput 1 dstr tstr (some 550) volt).v2 = some "0" ∧
    (post_pvoutput 1 dstr tstr (some (-200)) volt).v4 = "0" ∧
    (post_pvoutput 1 dstr tstr (some (-200)) volt).v2 = some "200" ∧
    (post_pvoutput 1 dstr tstr none volt).v4 = "0" ∧
    (post_pvoutput 1 dstr tstr none volt).v2 = some "0" := by
  have h550 : pyRound (550 : ℚ) = 550 := by norm_num [pyRound]
  have h200 : pyRound (200 : ℚ) = 200 := by norm_num [pyRound]
  have ht550 : toString (550 : ℤ) = "550" := rfl
  have ht200 : toString (200 : ℤ) = "200" := rfl
  have ht0 : toString (0 : ℤ) = "0" := rfl
  refine ⟨⟨?_, ?_, ?_⟩, ⟨?_, ?_, ?_⟩, ?_, ?_, ?_, ?_, ?_, ?_, ?_, ?_, ?_⟩
  · rcases demand with _ | dw
    · rfl
    · by_cases hd : dw < 0 <;> simp [post_pvoutput, hd, ht0]
  · rcases demand with _ | dw <;> simp [post_pvoutput]
  · rcases demand with _ | dw <;> simp [post_pvoutput]
  · rcases demand with _ | dw
    · rfl
    · by_cases hd : (0 : ℚ) ≤ dw <;> simp [post_pvoutput, hd, ht0]
  · rcases demand with _ | dw
    · rfl
    · by_cases hd : (0 : ℚ) ≤ dw <;> simp [post_pvoutput, hd, ht0]
  · rcases demand with _ | dw <;> simp [post_pvoutput]
  · norm_num [post_pvoutput, h550, ht550]
  · norm_num [post_pvoutput, ht0]
  · rfl
  · norm_num [post_pvoutput, h550, ht550]
  · norm_num [post_pvoutput, ht0]
  · norm_num [post_pvoutput, ht0]
  · norm_num [post_pvoutput, h200, ht200]
  · rfl
  · rfl

/-- A parsed sample produced by the device driver from a complete
fragment. -/
abbrev Sample := List (String × String)

/-- The fragment-assembly state of the RAVEn reader touched by
`ResilientRaven.handle_fragment` (src/pyrmqtt.py lines 29-49): the buffered
fragment text and the in-fragment flag. -/
structure RavenState where
  fragment : String
  in_fragment : Bool
  deriving DecidableEq

/-- Outcome of one call of the base `handle_fragment` of the parent class (the external
pyraven driver, invoked as `super().handle_fragment()`): a normal return
with the new state and the sample produced, an `ET.ParseError`, or any
other exception, each leaving the state reached at the point of raising. -/
inductive InnerResult
  | ok (s : RavenState) (sample : Option Sample)
  | parseError (msg : String) (s : RavenState)
  | otherExc (msg : String) (s : RavenState)

/-- Shallow embedding of `ResilientRaven.handle_fragment` (src/pyrmqtt.py
lines 35-49), parametric in the behaviour `inner` of the base method: a
normal return is passed through; on `ET.ParseError`, and on any other
exception, the handler logs, sets `self.fragment = ""` and
`self.in_fragment = False`, and returns normally with no sample.  The
return type has no exception channel: the embedding never propagates a
failure by construction, mirroring the two except clauses. -/
def handle_fragment (inner : RavenState → InnerResult) (s : RavenState) :
    RavenState × Option Sample :=
  match inner s with
  | InnerResult.ok s2 sample => (s2, sample)
  | InnerResult.parseError _ _ => (⟨"", false⟩, none)
  | InnerResult.otherExc _ _ => (⟨"", false⟩, none)

/-- C7: whenever the base handler raises — a parse error or any other
exception — `handle_fragment` returns normally with no sample and the state
reset to an empty fragment buffer and a cleared in-fragment flag; and after
such a failure, a subsequent call on which the base handler parses a
well-formed fragment returns that parsed sample. -/
theorem C7_fragment_failure_recovery :
    (∀ (inner : RavenState → InnerResult) (s : RavenState) (e : String)
        (serr : RavenState),
      (inner s = InnerResult.parseError e serr ∨
        inner s = InnerResult.otherExc e serr) →
      handle_fragment inner s = (⟨"", false⟩, none)) ∧
    (∀ (inner1 inner2 : RavenState → InnerResult) (s s2 : RavenState)
        (e : String) (serr : RavenState) (samp : Sample),
      (inner1 s = InnerResult.parseError e serr ∨
        inner1 s = InnerResult.otherExc e serr) →
      inner2 ⟨"", false⟩ = InnerResult.ok s2 (some samp) →
      handle_fragment inner2 (handle_fragment inner1 s).1 = (s2, some samp)) := by
  constructor
  · intro inner s e serr h
    rcases h with h | h <;> simp [handle_fragment, h]
  · intro inner1 inner2 s s2 e serr samp h1 h2
    have hreset : handle_fragment inner1 s = (⟨"", false⟩, none) := by
      rcases h1 with h | h <;> simp [handle_fragment, h]
    rw [hreset]
    simp [handle_fragment, h2]

/-- Witness for C7: a concrete malformed fragment (base handler raises a
parse error mid-fragment) followed by a concrete well-formed fragment
yields no sample for the first and the parsed sample for the second. -/
theorem C7_fragment_failure_recovery_witness :
    handle_fragment (fun _ => InnerResult.ok ⟨"", false⟩ (some [("demand", "1")]))
      (handle_fragment (fun _ => InnerResult.parseError "not well-formed" ⟨"<Instan", true⟩)
        ⟨"<Instan", true⟩).1 = (⟨"", false⟩, some [("demand", "1")]) :=
  C7_fragment_failure_recovery.2
    (fun _ => InnerResult.parseError "not well-formed" ⟨"<Instan", true⟩)
    (fun _ => InnerResult.ok ⟨"", false⟩ (some [("demand", "1")]))
    ⟨"<Instan", true⟩ ⟨"", false⟩ "not well-formed" ⟨"<Instan", true⟩
    [("demand", "1")] (Or.inl rfl) rfl

/-- Pointwise semantics of the telemetry payload dict built by
`transfer_loop` for a mapping sample (src/pyrmqtt.py lines 266-267):
`payload_obj = {"ts": _now_ts(), **raw}`.  In a Python dict display the
`**raw` expansion overrides the earlier `"ts"` entry, so the value at key k
is raw[k] when raw has the key, and the injected timestamp at "ts" only
otherwise.  The mapping raw is represented as an association list with
distinct keys. -/
def payloadVal (ts : ℚ) (raw : List (String × JVal)) (k : String) : Option JVal :=
  match raw.lookup k with
  | some v => some v
  | none => if k = "ts" then some (JVal.num ts) else none

/-- C9 counterexample: a sample that itself carries a "ts" key of value 0,
serialized at timestamp 100, yields a payload whose ts field is the
0 from the sample, not the injected timestamp 100. -/
theorem C9_ts_injection_counterexample :
    payloadVal 100 [("ts", JVal.num 0)] "ts" = some (JVal.num 0) ∧
    JVal.num (0 : ℚ) ≠ JVal.num 100 := by
  constructor
  · rfl
  · intro h
    exact absurd (JVal.num.inj h) (by norm_num)

/-- C9 amended: the serialized telemetry payload contains every key of the
sample with its value unmodified — including a "ts" key the sample itself
carries, which overrides the injected timestamp — the injected epoch
timestamp appears at "ts" exactly when the sample has no "ts" key of its
own, and no other key is added. -/
theorem C9_ts_injection_amended (ts : ℚ) (raw : List (String × JVal))
    (k : String) :
    (∀ v, raw.lookup k = some v → payloadVal ts raw k = some v) ∧
    (raw.lookup "ts" = none → payloadVal ts raw "ts" = some (JVal.num ts)) ∧
    (k ≠ "ts" → raw.lookup k = none → payloadVal ts raw k = none) := by
  refine ⟨?_, ?_, ?_⟩
  · intro v hv
    simp [payloadVal, hv]
  · intro hnone
    simp [payloadVal, hnone]
  · intro hk hnone
    simp [payloadVal, hnone, hk]

/-- Witness for C9 amended: a sample field "demand" passes through
verbatim. -/
theorem C9_ts_injection_amended_witness :
    payloadVal 7 [("demand", JVal.num 3)] "demand" = some (JVal.num 3) :=
  (C9_ts_injection_amended 7 [("demand", JVal.num 3)] "demand").1
    (JVal.num 3) rfl

/-- The possible outcomes of the `urllib.request.urlopen` call inside
`_request` (src/pvoutput_uploader.py lines 146-158): a normal response, an
`HTTPError` (which urlopen raises for every 4xx/5xx status, carrying the
code, error body and headers), a `URLError`, a `socket.timeout`, or another
`OSError` — each error carrying its `str(err)` message. -/
inductive UrlOpenResult
  | success (status : ℕ) (content : String) (headers : List (String × String))
  | httpError (code : ℕ) (body : String) (headers : List (String × String))
  | urlError (msg : String)
  | timeoutErr (msg : String)
  | osError (msg : String)
  deriving DecidableEq

/-- The minimal response wrapper `HttpResponse` (src/pvoutput_uploader.py
lines 92-115): status code, body, headers (the lazy text cache and JSON
parsing are derived views of `content` and are not consulted by any
claim). -/
structure HttpResponse where
  status_code : ℕ
  content : String
  headers : List (String × String)
  deriving DecidableEq

/-- Shallow embedding of the try/except structure of `_request`
(src/pvoutput_uploader.py lines 146-158), parametric in the outcome of
`urlopen`: a normal response becomes an `HttpResponse`; an `HTTPError` is
caught and also becomes a normal `HttpResponse` built from `err.read()`,
`err.code` and `err.headers`; `URLError`, `socket.timeout` and `OSError`
are converted into `RequestException` (`Except.error` carrying
`str(err)`). -/
def _request (outcome : UrlOpenResult) : Except String HttpResponse :=
  match outcome with
  | UrlOpenResult.success s c h => Except.ok ⟨s, c, h⟩
  | UrlOpenResult.httpError code body h => Except.ok ⟨code, body, h⟩
  | UrlOpenResult.urlError m => Except.error m
  | UrlOpenResult.timeoutErr m => Except.error m
  | UrlOpenResult.osError m => Except.error m

/-- C10: an HTTP response with an error status (urlopen raises `HTTPError`)
is not propagated as an exception but returned as a normal `HttpResponse`
carrying that status code, the error body and the headers, so callers
observe 4xx/5xx through `status_code`; and `_request` raises
`RequestException` exactly for the transport-level failures — `URLError`,
`socket.timeout`, `OSError`. -/
theorem C10_request_error_taxonomy :
    (∀ (c : ℕ) (b : String) (h : List (String × String)),
      _request (UrlOpenResult.httpError c b h) = Except.ok ⟨c, b, h⟩) ∧
    (∀ (s : ℕ) (c : String) (h : List (String × String)),
      _request (UrlOpenResult.success s c h) = Except.ok ⟨s, c, h⟩) ∧
    (∀ m, _request (UrlOpenResult.urlError m) = Except.error m) ∧
    (∀ m, _request (UrlOpenResult.timeoutErr m) = Except.error m) ∧
    (∀ m, _request (UrlOpenResult.osError m) = Except.error m) ∧
    (∀ (outcome : UrlOpenResult) (msg : String),
      _request outcome = Except.error msg →
      outcome = UrlOpenResult.urlError msg ∨
        outcome = UrlOpenResult.timeoutErr msg ∨
        outcome = UrlOpenResult.osError msg) := by
  refine ⟨fun c b h => rfl, fun s c h => rfl, fun m => rfl, fun m => rfl,
    fun m => rfl, ?_⟩
  intro outcome msg h
  cases outcome <;> simp [_request] at h ⊢ <;> exact h

/-- Witness for C10: a concrete transport failure (a socket timeout) is the
only way to produce its RequestException. -/
theorem C10_request_error_taxonomy_witness :
    UrlOpenResult.timeoutErr "timed out" = UrlOpenResult.urlError "timed out" ∨
      UrlOpenResult.timeoutErr "timed out" = UrlOpenResult.timeoutErr "timed out" ∨
      UrlOpenResult.timeoutErr "timed out" = UrlOpenResult.osError "timed out" :=
  C10_request_error_taxonomy.2.2.2.2.2 (UrlOpenResult.timeoutErr "timed out")
    "timed out" rfl
